import Mathlib

/-!
Verification of `amqpy/transport.py`: the transport layer of an AMQP 0.9.1
client.  We shallowly embed the data model and the operations of the source
file — the exact-read loop `AbstractTransport._read`, the frame protocol
`read_frame` / `write_frame`, the connect loop of `AbstractTransport.__init__`,
the SSL write loop `SSLTransport.write`, and the transport selection
`create_transport` — and prove the specification's claims about them.

Network nondeterminism is modelled by oracles: an incoming byte stream is a
list of `RecvEvent`s (what each successive `sock.recv_into` call delivers or
raises), and an outgoing SSL stream is a list of per-call accepted byte
counts.  Bytes are `Nat`s (values 0–255); exceptions are an inductive `PyExc`
that distinguishes the classes the source's `except` clauses distinguish.
-/

set_option autoImplicit false

namespace Amqpy

/-- Linux errno values used by `transport.py` (`errno.EAGAIN`, `errno.EINTR`,
`errno.ENOENT`). -/
def EAGAIN : Nat := 11

/-- Linux `errno.EINTR`. -/
def EINTR : Nat := 4

/-- Linux `errno.ENOENT`. -/
def ENOENT : Nat := 2

/-- The tuple `_UNAVAIL = errno.EAGAIN, errno.EINTR, errno.ENOENT` (transport.py line 16). -/
def _UNAVAIL : List Nat := [EAGAIN, EINTR, ENOENT]

/-- Decidable equality for `Except`, so that concrete runs of the embedded
operations can be checked by `decide`. -/
instance {ε α : Type} [DecidableEq ε] [DecidableEq α] : DecidableEq (Except ε α) :=
  fun x y =>
    match x, y with
    | .error a, .error b =>
      if h : a = b then .isTrue (congrArg Except.error h)
      else .isFalse fun hh => h (Except.error.inj hh)
    | .error _, .ok _ => .isFalse fun hh => Except.noConfusion hh
    | .ok _, .error _ => .isFalse fun hh => Except.noConfusion hh
    | .ok a, .ok b =>
      if h : a = b then .isTrue (congrArg Except.ok h)
      else .isFalse fun hh => h (Except.ok.inj hh)

/-- The exception classes that the source's `except` clauses tell apart.
`osError e` covers `OSError` / `IOError` / `socket.error` (one class in
Python 3) carrying an optional errno; `timeout` is `socket.timeout`
(errno `None`); `sslError e m` is `ssl.SSLError` where `m` records whether
the string `'timed out'` occurs in its message; `unexpectedFrame b` is
`amqpy.exceptions.UnexpectedFrame` naming the offending terminator byte;
`blocked` is a model artifact meaning the receive oracle was exhausted
(the real call would block forever), it corresponds to no Python exception. -/
inductive PyExc where
  | osError (errno : Option Nat)
  | timeout
  | sslError (errno : Option Nat) (msgTimedOut : Bool)
  | unexpectedFrame (b : Nat)
  | blocked
  deriving DecidableEq, Repr

/-- The `errno` attribute of an exception (`socket.timeout` carries `None`). -/
def PyExc.errnoOf : PyExc → Option Nat
  | .osError e => e
  | .timeout => none
  | .sslError e _ => e
  | .unexpectedFrame _ => none
  | .blocked => none

/-- Modelled from the spec: `amqpy.utils.get_errno` (imported at
transport.py line 11, source not in the repository slice) extracts an
exception's OS error code; the spec speaks of "an OS error whose code is in
the variant's transient set", so `get_errno` is the errno carried by the
exception. -/
def get_errno (e : PyExc) : Option Nat := e.errnoOf

/-- Membership test `get_errno(exc) in _UNAVAIL` / `exc.errno in errnos` as a Boolean:
a `None` errno is in no tuple of ints. -/
def errnoMem (e : Option Nat) (errnos : List Nat) : Bool :=
  match e with
  | some c => c ∈ errnos
  | none => false

/-- One behavior of a `sock.recv_into(mview, to_read)` call: either it
delivers a chunk of bytes (the kernel delivers at most `to_read` of them,
which the model enforces with `List.take`), or it raises a `socket.error`. -/
inductive RecvEvent where
  | ok (data : List Nat)
  | err (e : PyExc)
  deriving DecidableEq, Repr

/-- The loop body of `AbstractTransport._read` (transport.py lines 102–117):

```
mview = memoryview(self._rbuf)
to_read = n
while to_read:
    try:
        bytes_read = self.sock.recv_into(mview, to_read)
        mview = mview[bytes_read:]
        to_read -= bytes_read
    except socket.error as exc:
        if not initial and exc.errno in _errnos:
            continue
        raise
    if not bytes_read:
        raise IOError('socket closed')
return memoryview(self._rbuf)[:n]
```

`acc` is the prefix of the scratch buffer already filled; each iteration
consumes one `RecvEvent` from the oracle.  On success the function returns
the bytes read together with the unconsumed suffix of the oracle (so that
consecutive `read` calls can be chained). -/
def readLoop (errnos : List Nat) (initial : Bool) :
    List RecvEvent → Nat → List Nat → Except PyExc (List Nat × List RecvEvent)
  | evs, 0, acc => .ok (acc, evs)
  | [], _ + 1, _ => .error .blocked
  | .ok data :: rest, toRead + 1, acc =>
    let chunk := data.take (toRead + 1)
    if chunk.length = 0 then .error (.osError none)
    else readLoop errnos initial rest (toRead + 1 - chunk.length) (acc ++ chunk)
  | .err e :: rest, toRead + 1, acc =>
    if !initial && errnoMem e.errnoOf errnos then
      readLoop errnos initial rest (toRead + 1) acc
    else .error e

/-- Python `AbstractTransport._read(n, initial, _errnos)`: read exactly `n` bytes. -/
def _read (errnos : List Nat) (n : Nat) (initial : Bool) (evs : List RecvEvent) :
    Except PyExc (List Nat × List RecvEvent) :=
  readLoop errnos initial evs n []

/-- Python `SSLTransport.read(n, initial)` = `self._read(n, initial,
_errnos=(errno.ENOENT, errno.EAGAIN, errno.EINTR))` (transport.py line 231). -/
def SSLTransport.read (n : Nat) (initial : Bool) (evs : List RecvEvent) :
    Except PyExc (List Nat × List RecvEvent) :=
  _read [ENOENT, EAGAIN, EINTR] n initial evs

/-- Python `TCPTransport.read(n, initial)` = `self._read(n, initial,
_errnos=(errno.EAGAIN, errno.EINTR))` (transport.py line 260). -/
def TCPTransport.read (n : Nat) (initial : Bool) (evs : List RecvEvent) :
    Except PyExc (List Nat × List RecvEvent) :=
  _read [EAGAIN, EINTR] n initial evs

theorem readLoop_ok_length (errnos : List Nat) (initial : Bool) :
    ∀ (evs : List RecvEvent) (toRead : Nat) (acc out : List Nat)
      (rest : List RecvEvent),
      readLoop errnos initial evs toRead acc = .ok (out, rest) →
      out.length = acc.length + toRead
  | evs, 0, acc, out, rest => by
    intro h
    simp only [readLoop] at h
    obtain ⟨h1, _⟩ := Prod.mk.injEq .. ▸ (Except.ok.injEq _ _ ▸ h)
    simp [← h1]
  | [], _ + 1, acc, out, rest => by intro h; simp [readLoop] at h
  | .ok data :: evs, toRead + 1, acc, out, rest => by
    intro h
    simp only [readLoop] at h
    by_cases hz : (data.take (toRead + 1)).length = 0
    · simp [hz] at h
    · simp only [hz, if_false] at h
      have ih := readLoop_ok_length errnos initial evs
        (toRead + 1 - (data.take (toRead + 1)).length)
        (acc ++ data.take (toRead + 1)) out rest h
      have hle : (data.take (toRead + 1)).length ≤ toRead + 1 :=
        List.length_take_le (toRead + 1) data
      rw [ih, List.length_append]
      omega
  | .err e :: evs, toRead + 1, acc, out, rest => by
    intro h
    simp only [readLoop] at h
    by_cases hc : (!initial && errnoMem e.errnoOf errnos) = true
    · rw [if_pos hc] at h
      exact readLoop_ok_length errnos initial evs (toRead + 1) acc out rest h
    · rw [if_neg hc] at h; simp at h

/-- Modelled from the spec: `FrameType.END` (from `amqpy.spec`, whose source is
not in the repository slice) is the terminator sentinel `0xCE`
(used at transport.py line 183). -/
def FrameType.END : Nat := 0xCE

/-- A `Frame` as `read_frame` builds it: `frame.data` is the accumulator the
three reads extend in order (header, payload, terminator). -/
structure Frame where
  data : List Nat
  deriving DecidableEq, Repr

/-- Modelled from the spec: `Frame.payload_size` (from `amqpy.spec`, whose
source is not in the repository slice) is the "unsigned 32-bit, derived from
header bytes 4–7" — the big-endian 4-byte size field following the 1-byte
type and 2-byte channel in the 7-byte header. -/
def Frame.payload_size (f : Frame) : Nat :=
  f.data.getD 3 0 * 2 ^ 24 + f.data.getD 4 0 * 2 ^ 16 +
    f.data.getD 5 0 * 2 ^ 8 + f.data.getD 6 0

/-- Whether `isinstance(exc, SSLError) and 'timed out' in str(exc)` holds
(the test at transport.py line 178). -/
def PyExc.isSSLTimedOut : PyExc → Bool
  | .sslError _ m => m
  | _ => false

/-- The `except (OSError, IOError, socket.error)` handler of `read_frame`
(transport.py lines 176–182):

```
if isinstance(exc, SSLError) and 'timed out' in str(exc):
    raise socket.timeout()
if get_errno(exc) not in _UNAVAIL and not isinstance(exc, socket.timeout):
    self.connected = False
raise
```

Returns the exception that propagates and the new value of `connected`. -/
def classifyReadExc (e : PyExc) (connected : Bool) : PyExc × Bool :=
  if e.isSSLTimedOut then (.timeout, connected)
  else if !errnoMem (get_errno e) _UNAVAIL && !(e == .timeout) then (e, false)
  else (e, connected)

/-- Python `AbstractTransport.read_frame` (transport.py lines 149–186), for a
transport variant with transient-errno set `errnos`.  The input is the
`connected` flag and the receive oracle; the output is the frame or the
propagated exception, the new `connected` flag, and the unconsumed oracle
suffix.  The body:

```
frame = Frame()
try:
    frame_header = self.read(7, True)
    frame.data.extend(frame_header)
    payload = self.read(frame.payload_size)
    frame.data.extend(payload)
    frame_terminator = self.read(1)
    frame.data.extend(frame_terminator)
    i_last_byte = bytes(frame_terminator)[0]
except (OSError, IOError, socket.error) as exc:
    ... classifyReadExc ...
if i_last_byte == FrameType.END:
    return frame
else:
    raise UnexpectedFrame('Received ... while expecting 0xCE ...')
```

Note the `UnexpectedFrame` raise sits outside the `try`, so it never goes
through `classifyReadExc` and never touches `connected`. -/
def read_frame (errnos : List Nat) (connected : Bool) (evs : List RecvEvent) :
    Except PyExc Frame × Bool × List RecvEvent :=
  match _read errnos 7 true evs with
  | .error e =>
    let (e2, c2) := classifyReadExc e connected
    (.error e2, c2, evs)
  | .ok (hdr, evs1) =>
    let frame1 : Frame := ⟨hdr⟩
    match _read errnos frame1.payload_size false evs1 with
    | .error e =>
      let (e2, c2) := classifyReadExc e connected
      (.error e2, c2, evs1)
    | .ok (payload, evs2) =>
      match _read errnos 1 false evs2 with
      | .error e =>
        let (e2, c2) := classifyReadExc e connected
        (.error e2, c2, evs2)
      | .ok (term, evs3) =>
        let i_last_byte := term.getD 0 0
        if i_last_byte = FrameType.END then
          (.ok ⟨hdr ++ payload ++ term⟩, connected, evs3)
        else
          (.error (.unexpectedFrame i_last_byte), connected, evs3)

/-- Python `AbstractTransport.write_frame` (transport.py lines 188–205).  The
outcome of `self.write(frame.data)` is supplied as an oracle (`none` =
success, `some e` = the exception it raised); returns the result and the new
`connected` flag:

```
try:
    self.write(frame.data)
except socket.timeout:
    raise
except (OSError, IOError, socket.error) as exc:
    if get_errno(exc) not in _UNAVAIL:
        self.connected = False
    raise
``` -/
def write_frame (writeExc : Option PyExc) (connected : Bool) :
    Except PyExc Unit × Bool :=
  match writeExc with
  | none => (.ok (), connected)
  | some .timeout => (.error .timeout, connected)
  | some e =>
    if !errnoMem (get_errno e) _UNAVAIL then (.error e, false)
    else (.error e, connected)

/-! ## Connection establishment (`AbstractTransport.__init__`) -/

/-- What `sock.connect(sa)` does for one `getaddrinfo` candidate: either the
connect completes, or it raises a `socket.error` carrying an error id. -/
inductive ConnectOutcome where
  | success
  | failure (err : Nat)
  deriving DecidableEq, Repr

/-- One resolved address candidate: an id naming the socket that
`socket.socket(af, socktype, proto)` creates for it, and what its
`connect` attempt does. -/
structure Candidate where
  id : Nat
  outcome : ConnectOutcome
  deriving DecidableEq, Repr

/-- Result of the connect loop: the committed socket (if any), the ids of
every socket that was closed, and `last_err`. -/
structure ConnectResult where
  sock : Option Nat
  closed : List Nat
  last_err : Option Nat
  deriving DecidableEq, Repr

/-- The candidate loop of `AbstractTransport.__init__`
(transport.py lines 43–54):

```
last_err = None
for res in socket.getaddrinfo(host, port, 0, SOCK_STREAM, IPPROTO_TCP):
    af, socktype, proto, canonname, sa = res
    try:
        self.sock = socket.socket(af, socktype, proto)
        self.sock.settimeout(connect_timeout)
        self.sock.connect(sa)
        break
    except socket.error as exc:
        self.sock.close()
        self.sock = None
        last_err = exc
``` -/
def connectLoop : List Candidate → Option Nat → ConnectResult
  | [], last_err => ⟨none, [], last_err⟩
  | c :: rest, last_err =>
    match c.outcome with
    | .success => ⟨some c.id, [], last_err⟩
    | .failure e =>
      let r := connectLoop rest (some e)
      ⟨r.sock, c.id :: r.closed, r.last_err⟩

/-- The loop followed by the `if not self.sock: raise socket.error(last_err)`
check (transport.py lines 56–58): either the committed socket id together
with the closed ones, or the error the constructor raises, carrying
`last_err` (and the sockets closed along the way). -/
def tryConnect (cands : List Candidate) :
    Except (Option Nat × List Nat) (Nat × List Nat) :=
  let r := connectLoop cands none
  match r.sock with
  | some s => .ok (s, r.closed)
  | none => .error (r.last_err, r.closed)

/-- The post-connect section of `AbstractTransport.__init__`
(transport.py lines 60–73).  `self.connected` starts at the class attribute
value `c₀` (`False` on a fresh object, but kept abstract to state "left
untouched"); `setupExc` is what the `settimeout` / `setsockopt` /
`_setup_transport` / `write(AMQP_PROTOCOL_HEADER)` block raises (`none` if
it completes).  Returns the result, the final `connected` flag, and whether
the socket is still open at exit:

```
try:
    self.sock.settimeout(None)
    self.sock.setsockopt(...)
    self._setup_transport()
    self.write(AMQP_PROTOCOL_HEADER)
except (OSError, IOError, socket.error) as exc:
    if get_errno(exc) not in _UNAVAIL:
        self.connected = False
    raise
self.connected = True
```

Nothing in the handler closes the socket, so `sockOpen` is `true` on every
path. -/
def initAfterConnect (c₀ : Bool) (setupExc : Option PyExc) :
    Except PyExc Unit × Bool × Bool :=
  match setupExc with
  | none => (.ok (), true, true)
  | some e =>
    if !errnoMem (get_errno e) _UNAVAIL then (.error e, false, true)
    else (.error e, c₀, true)

/-! ## The SSL write loop (`SSLTransport.write`) -/

/-- Python `SSLTransport.write(s)` (transport.py lines 233–246).  The oracle
`accepts` lists, per successive `self.sock.write` call, how many bytes that
call accepts (the model caps it at the remaining length, as the OS does);
`sent` accumulates the bytes accepted so far:

```
while s:
    n = write(s)
    if not n:
        raise IOError('Socket closed')
    s = s[n:]
```

On success, returns all bytes put on the wire, in order. -/
def sslWriteLoop : List Nat → List Nat → List Nat → Except PyExc (List Nat)
  | [], _, sent => .ok sent
  | _ :: _, [], _ => .error .blocked
  | b :: s, k :: accepts, sent =>
    let n := min k (b :: s).length
    if n = 0 then .error (.osError none)
    else sslWriteLoop ((b :: s).drop n) accepts (sent ++ (b :: s).take n)

/-- Python `SSLTransport.write(s)`, started from an empty accumulator. -/
def SSLTransport.write (s : List Nat) (accepts : List Nat) :
    Except PyExc (List Nat) :=
  sslWriteLoop s accepts []

/-! ## Frame-lock discipline -/

/-- The lock attribute named by `@synchronized('_frame_lock')` on
`read_frame` (transport.py line 149).  The transport owns a single
`self._frame_lock = Lock()` (line 38). -/
def readFrameLockAttr : String := "_frame_lock"

/-- The lock attribute named by `@synchronized('_frame_lock')` on
`write_frame` (transport.py line 188). -/
def writeFrameLockAttr : String := "_frame_lock"

/-- Two `@synchronized` critical sections on the same transport can be in
flight simultaneously exactly when they acquire different lock attributes;
naming the same attribute means the same `Lock()` object, hence mutual
exclusion. -/
def mayProceedConcurrently (lock1 lock2 : String) : Bool :=
  lock1 ≠ lock2

/-! ## Transport selection (`create_transport`) -/

/-- The run-time class of a Python value, as far as
`isinstance(ssl_opts, dict)` can see it. -/
inductive PyValue where
  | pynone
  | pybool (b : Bool)
  | pyint (n : Int)
  | pystr (s : String)
  | pydict (entries : List (String × String))
  deriving DecidableEq, Repr

/-- Python `isinstance(v, dict)`. -/
def PyValue.isDict : PyValue → Bool
  | .pydict _ => true
  | _ => false

/-- The two transport classes `create_transport` can instantiate. -/
inductive TransportKind where
  | ssl
  | tcp
  deriving DecidableEq, Repr

/-- Python `create_transport` (transport.py lines 266–282):

```
if isinstance(ssl_opts, dict):
    return SSLTransport(host, port, connect_timeout, frame_max, ssl_opts)
else:
    return TCPTransport(host, port, connect_timeout, frame_max)
``` -/
def create_transport (ssl_opts : PyValue) : TransportKind :=
  match ssl_opts with
  | .pydict _ => .ssl
  | _ => .tcp

/-! ## Helper lemmas -/

/-- When the three reads of `read_frame` all succeed, the result is fully
determined: the completed frame on a `0xCE` terminator, `UnexpectedFrame`
otherwise, with `connected` untouched either way. -/
theorem read_frame_eq_of_reads (errnos : List Nat) (c : Bool)
    (evs evs1 evs2 evs3 : List RecvEvent) (hdr payload term : List Nat)
    (h1 : _read errnos 7 true evs = .ok (hdr, evs1))
    (h2 : _read errnos (Frame.payload_size ⟨hdr⟩) false evs1 = .ok (payload, evs2))
    (h3 : _read errnos 1 false evs2 = .ok (term, evs3)) :
    read_frame errnos c evs =
      ((if term.getD 0 0 = FrameType.END then .ok ⟨hdr ++ payload ++ term⟩
        else .error (.unexpectedFrame (term.getD 0 0))), c, evs3) := by
  simp only [read_frame, h1, h2, h3]
  split <;> rfl

/-- The exception that `read_frame`'s handler re-raises does not depend on
the incoming `connected` flag. -/
theorem classifyReadExc_fst (e : PyExc) (c c' : Bool) :
    (classifyReadExc e c).1 = (classifyReadExc e c').1 := by
  simp only [classifyReadExc]
  split
  · rfl
  · split <;> rfl

/-- Unfolding of `read_frame` when the header read itself raises. -/
theorem read_frame_err1 (errnos : List Nat) (c : Bool) (evs : List RecvEvent)
    (e : PyExc) (h1 : _read errnos 7 true evs = .error e) :
    read_frame errnos c evs =
      (.error (classifyReadExc e c).1, (classifyReadExc e c).2, evs) := by
  simp only [read_frame, h1]

/-- Unfolding of `read_frame` when the payload read raises. -/
theorem read_frame_err2 (errnos : List Nat) (c : Bool) (evs evs1 : List RecvEvent)
    (hdr : List Nat) (e : PyExc)
    (h1 : _read errnos 7 true evs = .ok (hdr, evs1))
    (h2 : _read errnos (Frame.payload_size ⟨hdr⟩) false evs1 = .error e) :
    read_frame errnos c evs =
      (.error (classifyReadExc e c).1, (classifyReadExc e c).2, evs1) := by
  simp only [read_frame, h1, h2]

/-- Unfolding of `read_frame` when the terminator read raises. -/
theorem read_frame_err3 (errnos : List Nat) (c : Bool)
    (evs evs1 evs2 : List RecvEvent) (hdr payload : List Nat) (e : PyExc)
    (h1 : _read errnos 7 true evs = .ok (hdr, evs1))
    (h2 : _read errnos (Frame.payload_size ⟨hdr⟩) false evs1 = .ok (payload, evs2))
    (h3 : _read errnos 1 false evs2 = .error e) :
    read_frame errnos c evs =
      (.error (classifyReadExc e c).1, (classifyReadExc e c).2, evs2) := by
  simp only [read_frame, h1, h2, h3]

/-- The frame (or exception) returned and the oracle events consumed by
`read_frame` do not depend on the incoming `connected` flag: the flag is
never consulted to short-circuit the operation. -/
theorem read_frame_ignores_connected (errnos : List Nat)
    (evs : List RecvEvent) (c c' : Bool) :
    (read_frame errnos c evs).1 = (read_frame errnos c' evs).1 ∧
      (read_frame errnos c evs).2.2 = (read_frame errnos c' evs).2.2 := by
  rcases h1 : _read errnos 7 true evs with e | ⟨hdr, evs1⟩
  · rw [read_frame_err1 errnos c evs e h1, read_frame_err1 errnos c' evs e h1]
    exact ⟨by rw [classifyReadExc_fst e c c'], rfl⟩
  · rcases h2 : _read errnos (Frame.payload_size ⟨hdr⟩) false evs1 with e | ⟨payload, evs2⟩
    · rw [read_frame_err2 errnos c evs evs1 hdr e h1 h2,
        read_frame_err2 errnos c' evs evs1 hdr e h1 h2]
      exact ⟨by rw [classifyReadExc_fst e c c'], rfl⟩
    · rcases h3 : _read errnos 1 false evs2 with e | ⟨term, evs3⟩
      · rw [read_frame_err3 errnos c evs evs1 evs2 hdr payload e h1 h2 h3,
          read_frame_err3 errnos c' evs evs1 evs2 hdr payload e h1 h2 h3]
        exact ⟨by rw [classifyReadExc_fst e c c'], rfl⟩
      · rw [read_frame_eq_of_reads errnos c evs evs1 evs2 evs3 hdr payload term h1 h2 h3,
          read_frame_eq_of_reads errnos c' evs evs1 evs2 evs3 hdr payload term h1 h2 h3]
        exact ⟨rfl, rfl⟩

/-- If every candidate before `c` fails and `c` connects, the loop commits
to `c` and has closed exactly the sockets of the failed candidates. -/
theorem connectLoop_success (post : List Candidate) (c : Candidate)
    (hc : c.outcome = .success) :
    ∀ (pre : List Candidate) (le : Option Nat),
      (∀ x ∈ pre, ∃ d, x.outcome = .failure d) →
      (connectLoop (pre ++ c :: post) le).sock = some c.id ∧
        (connectLoop (pre ++ c :: post) le).closed = pre.map Candidate.id
  | [], le => by
    intro _
    simp [connectLoop, hc]
  | x :: pre, le => by
    intro hpre
    obtain ⟨d, hd⟩ := hpre x (List.mem_cons_self x pre)
    have ih := connectLoop_success post c hc pre (some d)
      (fun y hy => hpre y (List.mem_cons_of_mem x hy))
    simp only [List.cons_append, connectLoop, hd]
    exact ⟨ih.1, by simp [ih.2]⟩

/-- If every candidate fails, the loop closes every socket, commits to none,
and remembers the error of the last candidate. -/
theorem connectLoop_allFail (e : Nat) (x : Candidate) (hx : x.outcome = .failure e) :
    ∀ (cands : List Candidate) (le : Option Nat),
      (∀ y ∈ cands, ∃ d, y.outcome = .failure d) →
      connectLoop (cands ++ [x]) le =
        ⟨none, (cands ++ [x]).map Candidate.id, some e⟩
  | [], le => by
    intro _
    simp [connectLoop, hx]
  | y :: cands, le => by
    intro hall
    obtain ⟨d, hd⟩ := hall y (List.mem_cons_self y cands)
    have ih := connectLoop_allFail e x hx cands (some d)
      (fun z hz => hall z (List.mem_cons_of_mem y hz))
    simp [connectLoop, hd, ih]

/-- Whatever bytes `sslWriteLoop` has already sent, a successful run sends
exactly the remaining bytes after them, in order. -/
theorem sslWriteLoop_ok (out : List Nat) :
    ∀ (accepts s sent : List Nat),
      sslWriteLoop s accepts sent = .ok out → out = sent ++ s
  | [], s, sent => by
    intro h
    cases s with
    | nil => simpa [sslWriteLoop] using h.symm
    | cons b s => simp [sslWriteLoop] at h
  | k :: accepts, s, sent => by
    intro h
    cases s with
    | nil => simpa [sslWriteLoop] using h.symm
    | cons b s =>
      simp only [sslWriteLoop] at h
      split at h
      · exact absurd h (by simp)
      · have ih := sslWriteLoop_ok out accepts _ _ h
        rw [ih, List.append_assoc, List.take_append_drop]

/-! ## Claims -/

/-- C1: for every `n ≥ 0`, the exact-read primitive
(`AbstractTransport._read`, exposed as `read(n, initial)`) either returns a
view of exactly `n` bytes or raises an error; it never returns fewer than
`n` bytes, looping over underlying receive calls until the remaining count
reaches zero. -/
theorem C1_read_exact (errnos : List Nat) (n : Nat) (initial : Bool)
    (evs : List RecvEvent) (out : List Nat) (rest : List RecvEvent)
    (h : _read errnos n initial evs = .ok (out, rest)) :
    out.length = n := by
  simpa using readLoop_ok_length errnos initial evs n [] out rest h

/-- Witness for C1 at a concrete input: a 3-byte read served by two
underlying receives of 2 and 1 bytes returns exactly 3 bytes. -/
theorem C1_read_exact_witness :
    _read [EAGAIN, EINTR] 3 false [.ok [1, 2], .ok [3]] = .ok ([1, 2, 3], []) ∧
      ([1, 2, 3] : List Nat).length = 3 :=
  ⟨by decide,
    C1_read_exact [EAGAIN, EINTR] 3 false [.ok [1, 2], .ok [3]] [1, 2, 3] []
      (by decide)⟩

/-- C2: `read_frame` reads exactly 7 header bytes with `initial = true`,
then exactly `payload_size` bytes (decoded from the header) with
`initial = false`, then exactly 1 terminator byte with `initial = false`,
appending them in that order; if the terminator equals `0xCE` it returns the
completed `Frame`, otherwise it raises `UnexpectedFrame` naming the byte and
never returns a `Frame`. -/
theorem C2_read_frame_protocol (errnos : List Nat) (c : Bool)
    (evs evs1 evs2 evs3 : List RecvEvent) (hdr payload term : List Nat)
    (h1 : _read errnos 7 true evs = .ok (hdr, evs1))
    (h2 : _read errnos (Frame.payload_size ⟨hdr⟩) false evs1 = .ok (payload, evs2))
    (h3 : _read errnos 1 false evs2 = .ok (term, evs3)) :
    hdr.length = 7 ∧ payload.length = Frame.payload_size ⟨hdr⟩ ∧
      term.length = 1 ∧
      (term.getD 0 0 = FrameType.END →
        read_frame errnos c evs = (.ok ⟨hdr ++ payload ++ term⟩, c, evs3)) ∧
      (term.getD 0 0 ≠ FrameType.END →
        read_frame errnos c evs =
          (.error (.unexpectedFrame (term.getD 0 0)), c, evs3)) := by
  refine ⟨?_, ?_, ?_, ?_, ?_⟩
  · simpa using readLoop_ok_length errnos true evs 7 [] hdr evs1 h1
  · simpa using
      readLoop_ok_length errnos false evs1 (Frame.payload_size ⟨hdr⟩) []
        payload evs2 h2
  · simpa using readLoop_ok_length errnos false evs2 1 [] term evs3 h3
  · intro hend
    rw [read_frame_eq_of_reads errnos c evs evs1 evs2 evs3 hdr payload term h1 h2 h3,
      if_pos hend]
  · intro hend
    rw [read_frame_eq_of_reads errnos c evs evs1 evs2 evs3 hdr payload term h1 h2 h3,
      if_neg hend]

/-- Witness for C2 at a concrete input: a well-terminated frame of payload
size 2 is assembled as header ++ payload ++ terminator. -/
theorem C2_read_frame_protocol_witness :
    read_frame [EAGAIN, EINTR] true
        [.ok [1, 0, 1, 0, 0, 0, 2], .ok [170, 187], .ok [206]] =
      (.ok ⟨[1, 0, 1, 0, 0, 0, 2] ++ [170, 187] ++ [206]⟩, true, []) :=
  (C2_read_frame_protocol [EAGAIN, EINTR] true
      [.ok [1, 0, 1, 0, 0, 0, 2], .ok [170, 187], .ok [206]] [.ok [170, 187], .ok [206]]
      [.ok [206]] [] [1, 0, 1, 0, 0, 0, 2] [170, 187] [206]
      (by decide) (by decide) (by decide)).2.2.2.1 (by decide)

/-- C3 (counterexample): the claim says a concurrent `read_frame` and
`write_frame` may proceed simultaneously because the read and write paths
use two independent mutexes; in the source both methods are decorated
`@synchronized('_frame_lock')` and acquire the one `self._frame_lock`, so
they can NOT proceed concurrently. -/
theorem C3_two_mutexes_counterexample :
    mayProceedConcurrently readFrameLockAttr writeFrameLockAttr = false := by
  decide

/-- C3 (amended): the transport uses a single mutex, `_frame_lock`, shared
by the read and write paths, so any two concurrent frame operations —
read/read, write/write, and also read/write — are mutually excluded. -/
theorem C3_shared_frame_lock :
    readFrameLockAttr = writeFrameLockAttr ∧
      mayProceedConcurrently readFrameLockAttr writeFrameLockAttr = false ∧
      mayProceedConcurrently readFrameLockAttr readFrameLockAttr = false ∧
      mayProceedConcurrently writeFrameLockAttr writeFrameLockAttr = false := by
  refine ⟨rfl, ?_, ?_, ?_⟩ <;> decide

/-- Reading an error event from the head of the oracle while the loop is
still unfilled propagates it when `initial` is true. -/
theorem readLoop_err_initial (errnos : List Nat) (rest : List RecvEvent)
    (toRead : Nat) (acc : List Nat) (e : PyExc) (ht : toRead ≠ 0) :
    readLoop errnos true (.err e :: rest) toRead acc = .error e := by
  obtain ⟨t, rfl⟩ := Nat.exists_eq_succ_of_ne_zero ht
  simp [readLoop]

/-- A receive that delivers zero bytes while the loop is still unfilled
raises `IOError('socket closed')`. -/
theorem readLoop_peer_closed (errnos : List Nat) (initial : Bool)
    (rest : List RecvEvent) (toRead : Nat) (acc : List Nat) (ht : toRead ≠ 0) :
    readLoop errnos initial (.ok [] :: rest) toRead acc =
      .error (.osError none) := by
  obtain ⟨t, rfl⟩ := Nat.exists_eq_succ_of_ne_zero ht
  simp [readLoop]

/-- The propagated exception of `write_frame` does not depend on the
incoming `connected` flag. -/
theorem write_frame_fst (w : Option PyExc) (c c' : Bool) :
    (write_frame w c).1 = (write_frame w c').1 := by
  rcases w with _ | e
  · rfl
  · cases e <;> simp only [write_frame] <;> first
      | rfl
      | (split <;> rfl)

/-- C4 (counterexample): a frame whose terminator byte is `0xAB` makes
`read_frame` raise `UnexpectedFrame` but leaves `connected = true` (the
raise sits outside the `try` that clears the flag), and a `read_frame`
issued with `connected = false` still performs network reads and succeeds —
both contradicting the claim that the flag goes false and that subsequent
calls fail without touching the network. -/
theorem C4_counterexample :
    read_frame [EAGAIN, EINTR] true [.ok [1, 0, 1, 0, 0, 0, 0], .ok [171]] =
        (.error (.unexpectedFrame 171), true, []) ∧
      read_frame [EAGAIN, EINTR] false [.ok [1, 0, 1, 0, 0, 0, 0], .ok [206]] =
        (.ok ⟨[1, 0, 1, 0, 0, 0, 0, 206]⟩, false, []) := by
  decide

/-- C4 (amended): after a receive reporting zero progress (peer closed)
`read_frame` fails with the socket-closed error and sets `connected` to
false; but a frame-format error (terminator ≠ `0xCE`) leaves `connected`
unchanged, and neither `read_frame` nor `write_frame` consults the
`connected` flag — their outcome and the network events they consume are
identical whatever the flag's value. -/
theorem C4_failure_flag_behavior (errnos : List Nat) (c c' : Bool)
    (evs rest evs1 evs2 evs3 : List RecvEvent) (hdr payload term : List Nat)
    (w : Option PyExc)
    (h1 : _read errnos 7 true evs = .ok (hdr, evs1))
    (h2 : _read errnos (Frame.payload_size ⟨hdr⟩) false evs1 = .ok (payload, evs2))
    (h3 : _read errnos 1 false evs2 = .ok (term, evs3))
    (hend : term.getD 0 0 ≠ FrameType.END) :
    read_frame errnos c (.ok [] :: rest) =
        (.error (.osError none), false, .ok [] :: rest) ∧
      read_frame errnos c evs =
        (.error (.unexpectedFrame (term.getD 0 0)), c, evs3) ∧
      (read_frame errnos c evs).1 = (read_frame errnos c' evs).1 ∧
      (read_frame errnos c evs).2.2 = (read_frame errnos c' evs).2.2 ∧
      (write_frame w c).1 = (write_frame w c').1 := by
  refine ⟨?_, ?_, (read_frame_ignores_connected errnos evs c c').1,
    (read_frame_ignores_connected errnos evs c c').2, write_frame_fst w c c'⟩
  · have ha : _read errnos 7 true (.ok [] :: rest) = .error (.osError none) :=
      readLoop_peer_closed errnos true rest 7 [] (by decide)
    rw [read_frame_err1 errnos c (.ok [] :: rest) (.osError none) ha]
    rfl
  · rw [read_frame_eq_of_reads errnos c evs evs1 evs2 evs3 hdr payload term h1 h2 h3,
      if_neg hend]

/-- Witness for the amended C4 at a concrete input: a bad terminator leaves
`connected` at its incoming value `true`. -/
theorem C4_failure_flag_behavior_witness :
    read_frame [EAGAIN, EINTR] true [.ok [1, 0, 1, 0, 0, 0, 0], .ok [170]] =
      (.error (.unexpectedFrame 170), true, []) :=
  (C4_failure_flag_behavior [EAGAIN, EINTR] true false
      [.ok [1, 0, 1, 0, 0, 0, 0], .ok [170]] [] [.ok [170]] [.ok [170]] []
      [1, 0, 1, 0, 0, 0, 0] [] [170] none
      (by decide) (by decide) (by decide) (by decide)).2.1

/-- C5: an OS error whose code is in the variant's transient set (EAGAIN and
EINTR, plus ENOENT for TLS) is swallowed and the receive retried, except
when `initial` is true, in which case it propagates immediately; errors
outside the set propagate regardless of `initial`. -/
theorem C5_transient_handling (errnos : List Nat) (e : PyExc)
    (rest evs : List RecvEvent) (n toRead : Nat) (acc : List Nat)
    (initial : Bool) (ht : toRead ≠ 0) :
    (errnoMem e.errnoOf errnos = true →
        readLoop errnos false (.err e :: rest) toRead acc =
          readLoop errnos false rest toRead acc) ∧
      (errnoMem e.errnoOf errnos = true →
        readLoop errnos true (.err e :: rest) toRead acc = .error e) ∧
      (errnoMem e.errnoOf errnos = false →
        readLoop errnos initial (.err e :: rest) toRead acc = .error e) ∧
      SSLTransport.read n initial evs = _read [ENOENT, EAGAIN, EINTR] n initial evs ∧
      TCPTransport.read n initial evs = _read [EAGAIN, EINTR] n initial evs := by
  obtain ⟨t, rfl⟩ := Nat.exists_eq_succ_of_ne_zero ht
  refine ⟨fun hm => ?_, fun hm => ?_, fun hm => ?_, rfl, rfl⟩
  · simp [readLoop, hm]
  · simp [readLoop, hm]
  · simp [readLoop, hm]

/-- Witness for C5 at a concrete input: a non-`initial` EAGAIN is retried. -/
theorem C5_transient_handling_witness :
    readLoop [EAGAIN, EINTR] false [.err (.osError (some EAGAIN))] 1 [] =
      readLoop [EAGAIN, EINTR] false [] 1 [] :=
  (C5_transient_handling [EAGAIN, EINTR] (.osError (some EAGAIN)) [] [] 1 1 []
      false (by decide)).1 (by decide)

/-- C6: connection establishment tries each resolved candidate in order,
closing each failed socket and remembering the most recent error; it commits
to the first candidate that connects (closing exactly the earlier, failed
sockets); if no candidate succeeds it raises a connection error carrying the
last underlying error, with every socket closed. -/
theorem C6_connect_fallback (pre post cs : List Candidate) (c x : Candidate)
    (e : Nat)
    (hpre : ∀ y ∈ pre, ∃ d, y.outcome = .failure d)
    (hc : c.outcome = .success)
    (hcs : ∀ y ∈ cs, ∃ d, y.outcome = .failure d)
    (hx : x.outcome = .failure e) :
    tryConnect (pre ++ c :: post) = .ok (c.id, pre.map Candidate.id) ∧
      tryConnect (cs ++ [x]) = .error (some e, (cs ++ [x]).map Candidate.id) := by
  constructor
  · have h := connectLoop_success post c hc pre none hpre
    simp only [tryConnect, h.1, h.2]
  · have h := connectLoop_allFail e x hx cs none hcs
    simp only [tryConnect, h]

/-- Witness for C6 at concrete inputs: the first candidate refuses, the
second accepts — the transport commits to the second and closes only the
first; a singleton list that refuses yields an error carrying its errno. -/
theorem C6_connect_fallback_witness :
    tryConnect [⟨0, .failure 7⟩, ⟨1, .success⟩] = .ok (1, [0]) ∧
      tryConnect [⟨2, .failure 9⟩] = .error (some 9, [2]) :=
  C6_connect_fallback [⟨0, .failure 7⟩] [] [] ⟨1, .success⟩ ⟨2, .failure 9⟩ 9
    (by simp) rfl (by simp) rfl

/-- C7 (counterexample): when writing the protocol header fails with a
non-transient error (ECONNRESET = 104), the constructor re-raises with
`connected = false` but leaves the socket OPEN (third component `true`): the
`except` block of `__init__` contains no `close()`, contradicting the
claim's "closes the resources it acquired". -/
theorem C7_counterexample :
    initAfterConnect false (some (.osError (some 104))) =
      (.error (.osError (some 104)), false, true) := by
  decide

/-- C7 (amended): if any step after successful socket creation fails during
construction, the constructor leaves `connected` false and re-raises the
original error — except when the error's code is in the transient set
(EAGAIN, EINTR, ENOENT), in which case `connected` is left untouched — but
it does not close the socket it acquired (teardown is deferred to
`close()` / the destructor). -/
theorem C7_setup_failure (c₀ : Bool) (e : PyExc) :
    (errnoMem (get_errno e) _UNAVAIL = false →
        initAfterConnect c₀ (some e) = (.error e, false, true)) ∧
      (errnoMem (get_errno e) _UNAVAIL = true →
        initAfterConnect c₀ (some e) = (.error e, c₀, true)) ∧
      initAfterConnect c₀ none = (.ok (), true, true) := by
  refine ⟨fun hm => ?_, fun hm => ?_, rfl⟩ <;> simp [initAfterConnect, hm]

/-- Witness for the amended C7 at a concrete input: a transient EAGAIN
leaves the not-yet-set `connected` flag untouched and the socket open. -/
theorem C7_setup_failure_witness :
    initAfterConnect false (some (.osError (some EAGAIN))) =
      (.error (.osError (some EAGAIN)), false, true) :=
  (C7_setup_failure false (.osError (some EAGAIN))).2.1 (by decide)

/-- C8: the TLS write primitive sends every byte of its argument before
returning — a successful run puts exactly the argument on the wire, in
order, looping over partial writes — and an underlying write accepting zero
bytes raises `IOError('Socket closed')` instead of partial success. -/
theorem C8_ssl_write_complete (s accepts : List Nat) :
    (∀ out, SSLTransport.write s accepts = .ok out → out = s) ∧
      (s ≠ [] → SSLTransport.write s (0 :: accepts) = .error (.osError none)) := by
  constructor
  · intro out h
    simpa using sslWriteLoop_ok out accepts s [] h
  · intro hs
    cases s with
    | nil => exact absurd rfl hs
    | cons b s' => simp [SSLTransport.write, sslWriteLoop]

/-- Witness for C8 at a concrete input: a 3-byte write accepted in chunks of
2 and 1 completes in full, and a zero-length write on a nonempty buffer
raises. -/
theorem C8_ssl_write_complete_witness :
    ([1, 2, 3] : List Nat) = [1, 2, 3] ∧
      SSLTransport.write [1, 2, 3] (0 :: [5]) = .error (.osError none) :=
  ⟨(C8_ssl_write_complete [1, 2, 3] [2, 5]).1 [1, 2, 3] (by decide),
    (C8_ssl_write_complete [1, 2, 3] [5]).2 (by decide)⟩

/-- C9: socket timeouts are re-raised as-is and never flip `connected`:
`write_frame` re-raises `socket.timeout` with the flag unchanged;
`read_frame` converts an `SSLError` whose message says "timed out" into
`socket.timeout` with the flag unchanged, and a `socket.timeout` during a
read also leaves it unchanged; other non-transient I/O errors in either
operation set `connected` to false before propagating. -/
theorem C9_timeout_handling (errnos : List Nat) (c : Bool) (en : Option Nat)
    (rest : List RecvEvent) (hn : errnoMem en _UNAVAIL = false) :
    write_frame (some .timeout) c = (.error .timeout, c) ∧
      read_frame errnos c (.err (.sslError en true) :: rest) =
        (.error .timeout, c, .err (.sslError en true) :: rest) ∧
      read_frame errnos c (.err .timeout :: rest) =
        (.error .timeout, c, .err .timeout :: rest) ∧
      read_frame errnos c (.err (.osError en) :: rest) =
        (.error (.osError en), false, .err (.osError en) :: rest) ∧
      write_frame (some (.osError en)) c = (.error (.osError en), false) := by
  have h1 : ∀ x : PyExc, _read errnos 7 true (.err x :: rest) = .error x :=
    fun x => readLoop_err_initial errnos rest 7 [] x (by decide)
  refine ⟨rfl, ?_, ?_, ?_, ?_⟩
  · rw [read_frame_err1 errnos c (.err (.sslError en true) :: rest) _ (h1 _)]
    rfl
  · rw [read_frame_err1 errnos c (.err .timeout :: rest) _ (h1 _)]
    rfl
  · rw [read_frame_err1 errnos c (.err (.osError en) :: rest) _ (h1 _)]
    simp [classifyReadExc, PyExc.isSSLTimedOut, get_errno, PyExc.errnoOf, hn]
  · simp [write_frame, get_errno, PyExc.errnoOf, hn]

/-- Witness for C9 at a concrete input: an SSL "timed out" error during the
header read surfaces as `socket.timeout` with `connected` still true. -/
theorem C9_timeout_handling_witness :
    read_frame [EAGAIN, EINTR] true [.err (.sslError (some 104) true)] =
      (.error .timeout, true, [.err (.sslError (some 104) true)]) :=
  (C9_timeout_handling [EAGAIN, EINTR] true (some 104) [] (by decide)).2.1

/-- C10: `create_transport` returns a TLS transport exactly when `ssl_opts`
is a dict; any other value — `None`, `True`, a non-dict truthy value —
yields a plain TCP transport with no TLS setup. -/
theorem C10_create_transport_iff (v : PyValue) :
    (create_transport v = .ssl ↔ v.isDict = true) ∧
      create_transport .pynone = .tcp ∧
      create_transport (.pybool true) = .tcp ∧
      create_transport (.pystr "tls") = .tcp := by
  refine ⟨?_, rfl, rfl, rfl⟩
  cases v <;> simp [create_transport, PyValue.isDict]

end Amqpy
